import Mathlib

/-!
Shallow embedding of `src/universi/structure/endpoints.py` (the endpoint
version-migration instruction model of the `universi` repository) and proofs
about it.

Python runtime values are modelled by the inductive `PyValue`; Python
exceptions raised during a construction are modelled by an `Except String`
result where a claim is about construction-time failure.  Dataclass field
access and assignment on the slotted (non-frozen) dataclasses are modelled
explicitly by `getattr`/`setattr` style functions following CPython
semantics for `@dataclass(slots=True)`.
-/

/-- A model of the Python runtime values that can be stored in the
attribute-payload fields.  `sentinel` is the unique unset marker;
`noneVal`, `bool`, `int`, `str`, `list`, `dict` and `callable` cover the
legitimate attribute value domains (callables are referenced by an id into
a call environment, see `CallEnv`). -/
inductive PyValue where
  | sentinel : PyValue
  | noneVal : PyValue
  | bool (b : Bool) : PyValue
  | int (n : Int) : PyValue
  | str (s : String) : PyValue
  | list (xs : List PyValue) : PyValue
  | dict (kvs : List (PyValue × PyValue)) : PyValue
  | callable (ref : Nat) : PyValue


/-- Modelled from the spec: the `Sentinel` marker imported from
`universi/_utils.py`, whose source is not part of this repository snapshot.
Per §4.1 of the spec it is a single process-wide singleton, compared only by
identity, distinguishable from every legitimate attribute value (including
`None`, `False` and empty containers) and not constructible by user code.
It is modelled as a dedicated `PyValue` constructor, so identity comparison
`field is Sentinel` becomes equality with `PyValue.sentinel`, and user-passed
values are exactly the non-`sentinel` values. -/
def Sentinel : PyValue := PyValue.sentinel

/-- `EndpointAttributesPayload` (endpoints.py lines 15-51): one field per
overridable route attribute.  Every field holds a Python runtime value;
the declared Python type annotations are not enforced at runtime, and every
field's default at the `had` call site is the Sentinel marker. -/
structure EndpointAttributesPayload where
  path : PyValue
  response_model : PyValue
  status_code : PyValue
  tags : PyValue
  dependencies : PyValue
  summary : PyValue
  description : PyValue
  response_description : PyValue
  responses : PyValue
  deprecated : PyValue
  methods : PyValue
  operation_id : PyValue
  include_in_schema : PyValue
  response_class : PyValue
  name : PyValue
  callbacks : PyValue
  openapi_extra : PyValue
  generate_unique_id_function : PyValue


/-- The eighteen attribute fields of `EndpointAttributesPayload`, used to
quantify over fields. -/
inductive AttrField where
  | path | response_model | status_code | tags | dependencies | summary
  | description | response_description | responses | deprecated | methods
  | operation_id | include_in_schema | response_class | name | callbacks
  | openapi_extra | generate_unique_id_function


/-- Field access on the payload, indexed by `AttrField`. -/
def EndpointAttributesPayload.get (p : EndpointAttributesPayload) : AttrField → PyValue
  | .path => p.path
  | .response_model => p.response_model
  | .status_code => p.status_code
  | .tags => p.tags
  | .dependencies => p.dependencies
  | .summary => p.summary
  | .description => p.description
  | .response_description => p.response_description
  | .responses => p.responses
  | .deprecated => p.deprecated
  | .methods => p.methods
  | .operation_id => p.operation_id
  | .include_in_schema => p.include_in_schema
  | .response_class => p.response_class
  | .name => p.name
  | .callbacks => p.callbacks
  | .openapi_extra => p.openapi_extra
  | .generate_unique_id_function => p.generate_unique_id_function

/-- A `had(...)` call site: for each keyword parameter, `some v` when the
call site passes `v` explicitly and `Option.none` when the call site does
not mention the parameter.  This models Python keyword arguments. -/
structure HadKwargs where
  path : Option PyValue := Option.none
  response_model : Option PyValue := Option.none
  status_code : Option PyValue := Option.none
  tags : Option PyValue := Option.none
  dependencies : Option PyValue := Option.none
  summary : Option PyValue := Option.none
  description : Option PyValue := Option.none
  response_description : Option PyValue := Option.none
  responses : Option PyValue := Option.none
  deprecated : Option PyValue := Option.none
  methods : Option PyValue := Option.none
  operation_id : Option PyValue := Option.none
  include_in_schema : Option PyValue := Option.none
  response_class : Option PyValue := Option.none
  name : Option PyValue := Option.none
  callbacks : Option PyValue := Option.none
  openapi_extra : Option PyValue := Option.none
  generate_unique_id_function : Option PyValue := Option.none


/-- The argument a call site supplies for a given field, if any. -/
def HadKwargs.get (k : HadKwargs) : AttrField → Option PyValue
  | .path => k.path
  | .response_model => k.response_model
  | .status_code => k.status_code
  | .tags => k.tags
  | .dependencies => k.dependencies
  | .summary => k.summary
  | .description => k.description
  | .response_description => k.response_description
  | .responses => k.responses
  | .deprecated => k.deprecated
  | .methods => k.methods
  | .operation_id => k.operation_id
  | .include_in_schema => k.include_in_schema
  | .response_class => k.response_class
  | .name => k.name
  | .callbacks => k.callbacks
  | .openapi_extra => k.openapi_extra
  | .generate_unique_id_function => k.generate_unique_id_function

/-- Python keyword-argument defaulting for `had` (lines 106-127): each
parameter defaults to the Sentinel marker when the call site does not pass
it. -/
def kwvalue (o : Option PyValue) : PyValue := o.getD PyValue.sentinel

/-- `EndpointHadInstruction` (lines 54-59). -/
structure EndpointHadInstruction where
  endpoint_path : String
  endpoint_methods : List String
  endpoint_func_name : Option String
  attributes : EndpointAttributesPayload


/-- `EndpointExistedInstruction` (lines 62-66). -/
structure EndpointExistedInstruction where
  endpoint_path : String
  endpoint_methods : List String
  endpoint_func_name : Option String


/-- `EndpointDidntExistInstruction` (lines 69-73). -/
structure EndpointDidntExistInstruction where
  endpoint_path : String
  endpoint_methods : List String
  endpoint_func_name : Option String


/-- `EndpointWasInstruction` (lines 76-81).  `get_old_endpoint` stores the
Python value passed to `was` (the Python runtime does not enforce the
`Callable` annotation, so any `PyValue` can end up stored). -/
structure EndpointWasInstruction where
  endpoint_path : String
  endpoint_methods : List String
  endpoint_func_name : Option String
  get_old_endpoint : PyValue


/-- `EndpointInstructionFactory` (lines 84-88): the per-endpoint factory,
holding the endpoint identity key. -/
structure EndpointInstructionFactory where
  endpoint_path : String
  endpoint_methods : List String
  endpoint_func_name : Option String


/-- The `didnt_exist` property (lines 90-96). -/
def EndpointInstructionFactory.didnt_exist (self : EndpointInstructionFactory) :
    EndpointDidntExistInstruction :=
  { endpoint_path := self.endpoint_path
    endpoint_methods := self.endpoint_methods
    endpoint_func_name := self.endpoint_func_name }

/-- The `existed` property (lines 98-104). -/
def EndpointInstructionFactory.existed (self : EndpointInstructionFactory) :
    EndpointExistedInstruction :=
  { endpoint_path := self.endpoint_path
    endpoint_methods := self.endpoint_methods
    endpoint_func_name := self.endpoint_func_name }

/-- The `had` method (lines 106-152): builds the payload from the keyword
arguments, each defaulting to the Sentinel marker, and wraps it together
with the factory's identity key in an `EndpointHadInstruction`. -/
def EndpointInstructionFactory.had (self : EndpointInstructionFactory)
    (kwargs : HadKwargs) : EndpointHadInstruction :=
  { endpoint_path := self.endpoint_path
    endpoint_methods := self.endpoint_methods
    endpoint_func_name := self.endpoint_func_name
    attributes :=
      { path := kwvalue kwargs.path
        response_model := kwvalue kwargs.response_model
        status_code := kwvalue kwargs.status_code
        tags := kwvalue kwargs.tags
        dependencies := kwvalue kwargs.dependencies
        summary := kwvalue kwargs.summary
        description := kwvalue kwargs.description
        response_description := kwvalue kwargs.response_description
        responses := kwvalue kwargs.responses
        deprecated := kwvalue kwargs.deprecated
        methods := kwvalue kwargs.methods
        operation_id := kwvalue kwargs.operation_id
        include_in_schema := kwvalue kwargs.include_in_schema
        response_class := kwvalue kwargs.response_class
        name := kwvalue kwargs.name
        callbacks := kwvalue kwargs.callbacks
        openapi_extra := kwvalue kwargs.openapi_extra
        generate_unique_id_function := kwvalue kwargs.generate_unique_id_function } }

/-- The `was` method (lines 154-163): stores the passed value unevaluated in
an `EndpointWasInstruction`.  The `Except` result channel models Python
exceptions escaping the construction; the body of `was` raises nothing, so
the result is always `Except.ok`. -/
def EndpointInstructionFactory.was (self : EndpointInstructionFactory)
    (get_old_endpoint : PyValue) : Except String EndpointWasInstruction :=
  Except.ok
    { endpoint_path := self.endpoint_path
      endpoint_methods := self.endpoint_methods
      endpoint_func_name := self.endpoint_func_name
      get_old_endpoint := get_old_endpoint }

/-- The module-level `endpoint` function (lines 166-167): constructs the
factory directly from its arguments.  The `Except` result channel models
Python exceptions escaping the construction; the body performs no
validation and raises nothing, so the result is always `Except.ok`. -/
def endpoint (path : String) (methods : List String)
    (func_name : Option String) : Except String EndpointInstructionFactory :=
  Except.ok
    { endpoint_path := path
      endpoint_methods := methods
      endpoint_func_name := func_name }

/-- A call environment for modelled Python callables: `table r t` is the
result of invoking the callable with reference id `r` at (logical) time
`t` after construction; `Option.none` means that invocation raises. -/
structure CallEnv where
  table : Nat → Nat → Option PyValue

/-- Invoking a stored Python value at time `t`: a callable defers to the
call environment; invoking a non-callable raises a `TypeError`, modelled as
`Option.none`. -/
def invoke (env : CallEnv) (v : PyValue) (t : Nat) : Option PyValue :=
  match v with
  | .callable r => env.table r t
  | _ => Option.none

/-- Whether a Python value is callable. -/
def PyValue.isCallable : PyValue → Bool
  | .callable _ => true
  | _ => false

/-- `AlterEndpointSubInstruction` (line 170): the union type consumed by
the migration engine.  The source declares it as
`EndpointDidntExistInstruction | EndpointExistedInstruction | EndpointHadInstruction`:
exactly three members. -/
inductive AlterEndpointSubInstruction where
  | didntExist (i : EndpointDidntExistInstruction)
  | existed (i : EndpointExistedInstruction)
  | had (i : EndpointHadInstruction)

/-- The instructions the factory can produce: any of the four variants. -/
inductive AnyEndpointInstruction where
  | didntExist (i : EndpointDidntExistInstruction)
  | existed (i : EndpointExistedInstruction)
  | had (i : EndpointHadInstruction)
  | was (i : EndpointWasInstruction)

/-- Membership of an instruction in the `AlterEndpointSubInstruction`
union of line 170 (Python `isinstance` against the union): the three member
variants inject, `EndpointWasInstruction` is not a member. -/
def toAlterEndpointSubInstruction : AnyEndpointInstruction → Option AlterEndpointSubInstruction
  | .didntExist i => Option.some (.didntExist i)
  | .existed i => Option.some (.existed i)
  | .had i => Option.some (.had i)
  | .was _ => Option.none

/-- Python `getattr` on an `EndpointExistedInstruction` (a slotted
dataclass): the three declared slots are readable, any other attribute
name raises `AttributeError`. -/
def EndpointExistedInstruction.getattr (i : EndpointExistedInstruction)
    (attrName : String) : Except String PyValue :=
  match attrName with
  | "endpoint_path" => Except.ok (PyValue.str i.endpoint_path)
  | "endpoint_methods" => Except.ok (PyValue.list (i.endpoint_methods.map PyValue.str))
  | "endpoint_func_name" =>
      Except.ok (match i.endpoint_func_name with
        | Option.some s => PyValue.str s
        | Option.none => PyValue.noneVal)
  | _ => Except.error "AttributeError"

/-- Python `getattr` on an `EndpointDidntExistInstruction` (a slotted
dataclass): the three declared slots are readable, any other attribute
name raises `AttributeError`. -/
def EndpointDidntExistInstruction.getattr (i : EndpointDidntExistInstruction)
    (attrName : String) : Except String PyValue :=
  match attrName with
  | "endpoint_path" => Except.ok (PyValue.str i.endpoint_path)
  | "endpoint_methods" => Except.ok (PyValue.list (i.endpoint_methods.map PyValue.str))
  | "endpoint_func_name" =>
      Except.ok (match i.endpoint_func_name with
        | Option.some s => PyValue.str s
        | Option.none => PyValue.noneVal)
  | _ => Except.error "AttributeError"

/-- Functional update of one payload field. -/
def EndpointAttributesPayload.set (p : EndpointAttributesPayload)
    (f : AttrField) (v : PyValue) : EndpointAttributesPayload :=
  match f with
  | .path => { p with path := v }
  | .response_model => { p with response_model := v }
  | .status_code => { p with status_code := v }
  | .tags => { p with tags := v }
  | .dependencies => { p with dependencies := v }
  | .summary => { p with summary := v }
  | .description => { p with description := v }
  | .response_description => { p with response_description := v }
  | .responses => { p with responses := v }
  | .deprecated => { p with deprecated := v }
  | .methods => { p with methods := v }
  | .operation_id => { p with operation_id := v }
  | .include_in_schema => { p with include_in_schema := v }
  | .response_class => { p with response_class := v }
  | .name => { p with name := v }
  | .callbacks => { p with callbacks := v }
  | .openapi_extra => { p with openapi_extra := v }
  | .generate_unique_id_function => { p with generate_unique_id_function := v }

/-- The declared slot names of `EndpointAttributesPayload`, as Python
attribute-name strings. -/
def attrFieldOfName : String → Option AttrField
  | "path" => Option.some .path
  | "response_model" => Option.some .response_model
  | "status_code" => Option.some .status_code
  | "tags" => Option.some .tags
  | "dependencies" => Option.some .dependencies
  | "summary" => Option.some .summary
  | "description" => Option.some .description
  | "response_description" => Option.some .response_description
  | "responses" => Option.some .responses
  | "deprecated" => Option.some .deprecated
  | "methods" => Option.some .methods
  | "operation_id" => Option.some .operation_id
  | "include_in_schema" => Option.some .include_in_schema
  | "response_class" => Option.some .response_class
  | "name" => Option.some .name
  | "callbacks" => Option.some .callbacks
  | "openapi_extra" => Option.some .openapi_extra
  | "generate_unique_id_function" => Option.some .generate_unique_id_function
  | _ => Option.none

/-- Python attribute assignment on an `EndpointAttributesPayload`.
The payload is declared `@dataclass(slots=True)` WITHOUT `frozen=True`
(endpoints.py line 15), so CPython semantics are: assignment to a declared
slot succeeds and rebinds the field; assignment to any other attribute
name raises `AttributeError` (because of the slots). -/
def EndpointAttributesPayload.setattr (p : EndpointAttributesPayload)
    (attrName : String) (v : PyValue) : Except String EndpointAttributesPayload :=
  match attrFieldOfName attrName with
  | Option.some f => Except.ok (p.set f v)
  | Option.none => Except.error "AttributeError"

/-- The three identity slots shared by `EndpointExistedInstruction` and
`EndpointDidntExistInstruction` (their dataclasses declare exactly these). -/
inductive IdField where
  | endpoint_path | endpoint_methods | endpoint_func_name

/-- The declared (annotation) type of each identity slot. -/
def IdField.Ty : IdField → Type
  | .endpoint_path => String
  | .endpoint_methods => List String
  | .endpoint_func_name => Option String

/-- Resolution of a Python attribute name against the identity slots. -/
def idFieldOfName : String → Option IdField
  | "endpoint_path" => Option.some .endpoint_path
  | "endpoint_methods" => Option.some .endpoint_methods
  | "endpoint_func_name" => Option.some .endpoint_func_name
  | _ => Option.none

/-- The four slots of `EndpointHadInstruction` (lines 54-59). -/
inductive HadField where
  | endpoint_path | endpoint_methods | endpoint_func_name | attributes

/-- The declared (annotation) type of each `EndpointHadInstruction` slot. -/
def HadField.Ty : HadField → Type
  | .endpoint_path => String
  | .endpoint_methods => List String
  | .endpoint_func_name => Option String
  | .attributes => EndpointAttributesPayload

/-- Resolution of a Python attribute name against the
`EndpointHadInstruction` slots. -/
def hadFieldOfName : String → Option HadField
  | "endpoint_path" => Option.some .endpoint_path
  | "endpoint_methods" => Option.some .endpoint_methods
  | "endpoint_func_name" => Option.some .endpoint_func_name
  | "attributes" => Option.some .attributes
  | _ => Option.none

/-- The four slots of `EndpointWasInstruction` (lines 76-81). -/
inductive WasField where
  | endpoint_path | endpoint_methods | endpoint_func_name | get_old_endpoint

/-- The declared (annotation) type of each `EndpointWasInstruction` slot. -/
def WasField.Ty : WasField → Type
  | .endpoint_path => String
  | .endpoint_methods => List String
  | .endpoint_func_name => Option String
  | .get_old_endpoint => PyValue

/-- Resolution of a Python attribute name against the
`EndpointWasInstruction` slots. -/
def wasFieldOfName : String → Option WasField
  | "endpoint_path" => Option.some .endpoint_path
  | "endpoint_methods" => Option.some .endpoint_methods
  | "endpoint_func_name" => Option.some .endpoint_func_name
  | "get_old_endpoint" => Option.some .get_old_endpoint
  | _ => Option.none

/-- Functional update of one `EndpointHadInstruction` slot. -/
def EndpointHadInstruction.setF (i : EndpointHadInstruction) :
    (f : HadField) → HadField.Ty f → EndpointHadInstruction
  | .endpoint_path, v => { i with endpoint_path := v }
  | .endpoint_methods, v => { i with endpoint_methods := v }
  | .endpoint_func_name, v => { i with endpoint_func_name := v }
  | .attributes, v => { i with attributes := v }

/-- Reading one `EndpointHadInstruction` slot. -/
def EndpointHadInstruction.getF (i : EndpointHadInstruction) :
    (f : HadField) → HadField.Ty f
  | .endpoint_path => i.endpoint_path
  | .endpoint_methods => i.endpoint_methods
  | .endpoint_func_name => i.endpoint_func_name
  | .attributes => i.attributes

/-- Python attribute assignment on an `EndpointHadInstruction`.  The
dataclass is declared `@dataclass(slots=True)` WITHOUT `frozen=True`
(line 54), so CPython semantics are: assignment to a declared slot
succeeds and rebinds the field (`v` supplies the assigned value at each
slot's type; the resolved slot picks its component); assignment to any
other attribute name raises `AttributeError` (because of the slots). -/
def EndpointHadInstruction.setattr (i : EndpointHadInstruction)
    (attrName : String) (v : (f : HadField) → HadField.Ty f) :
    Except String EndpointHadInstruction :=
  match hadFieldOfName attrName with
  | Option.some f => Except.ok (i.setF f (v f))
  | Option.none => Except.error "AttributeError"

/-- Functional update of one `EndpointExistedInstruction` slot. -/
def EndpointExistedInstruction.setF (i : EndpointExistedInstruction) :
    (f : IdField) → IdField.Ty f → EndpointExistedInstruction
  | .endpoint_path, v => { i with endpoint_path := v }
  | .endpoint_methods, v => { i with endpoint_methods := v }
  | .endpoint_func_name, v => { i with endpoint_func_name := v }

/-- Reading one `EndpointExistedInstruction` slot. -/
def EndpointExistedInstruction.getF (i : EndpointExistedInstruction) :
    (f : IdField) → IdField.Ty f
  | .endpoint_path => i.endpoint_path
  | .endpoint_methods => i.endpoint_methods
  | .endpoint_func_name => i.endpoint_func_name

/-- Python attribute assignment on an `EndpointExistedInstruction`
(slotted, not frozen — line 62): a declared slot rebinds, any other name
raises `AttributeError`. -/
def EndpointExistedInstruction.setattr (i : EndpointExistedInstruction)
    (attrName : String) (v : (f : IdField) → IdField.Ty f) :
    Except String EndpointExistedInstruction :=
  match idFieldOfName attrName with
  | Option.some f => Except.ok (i.setF f (v f))
  | Option.none => Except.error "AttributeError"

/-- Functional update of one `EndpointDidntExistInstruction` slot. -/
def EndpointDidntExistInstruction.setF (i : EndpointDidntExistInstruction) :
    (f : IdField) → IdField.Ty f → EndpointDidntExistInstruction
  | .endpoint_path, v => { i with endpoint_path := v }
  | .endpoint_methods, v => { i with endpoint_methods := v }
  | .endpoint_func_name, v => { i with endpoint_func_name := v }

/-- Reading one `EndpointDidntExistInstruction` slot. -/
def EndpointDidntExistInstruction.getF (i : EndpointDidntExistInstruction) :
    (f : IdField) → IdField.Ty f
  | .endpoint_path => i.endpoint_path
  | .endpoint_methods => i.endpoint_methods
  | .endpoint_func_name => i.endpoint_func_name

/-- Python attribute assignment on an `EndpointDidntExistInstruction`
(slotted, not frozen — line 69): a declared slot rebinds, any other name
raises `AttributeError`. -/
def EndpointDidntExistInstruction.setattr (i : EndpointDidntExistInstruction)
    (attrName : String) (v : (f : IdField) → IdField.Ty f) :
    Except String EndpointDidntExistInstruction :=
  match idFieldOfName attrName with
  | Option.some f => Except.ok (i.setF f (v f))
  | Option.none => Except.error "AttributeError"

/-- Functional update of one `EndpointWasInstruction` slot. -/
def EndpointWasInstruction.setF (i : EndpointWasInstruction) :
    (f : WasField) → WasField.Ty f → EndpointWasInstruction
  | .endpoint_path, v => { i with endpoint_path := v }
  | .endpoint_methods, v => { i with endpoint_methods := v }
  | .endpoint_func_name, v => { i with endpoint_func_name := v }
  | .get_old_endpoint, v => { i with get_old_endpoint := v }

/-- Reading one `EndpointWasInstruction` slot. -/
def EndpointWasInstruction.getF (i : EndpointWasInstruction) :
    (f : WasField) → WasField.Ty f
  | .endpoint_path => i.endpoint_path
  | .endpoint_methods => i.endpoint_methods
  | .endpoint_func_name => i.endpoint_func_name
  | .get_old_endpoint => i.get_old_endpoint

/-- Python attribute assignment on an `EndpointWasInstruction` (slotted,
not frozen — line 76): a declared slot rebinds, any other name raises
`AttributeError`. -/
def EndpointWasInstruction.setattr (i : EndpointWasInstruction)
    (attrName : String) (v : (f : WasField) → WasField.Ty f) :
    Except String EndpointWasInstruction :=
  match wasFieldOfName attrName with
  | Option.some f => Except.ok (i.setF f (v f))
  | Option.none => Except.error "AttributeError"

/-- The ambient global routing state visible to the factory module.  The
source body of each factory operation references no global state, so the
operations leave it untouched. -/
structure RoutingState where
  routes : List String

/-- The full method-call protocol for `didnt_exist`: the result, the
factory object after the call, and the ambient routing state after the
call.  The body (lines 90-96) is a single constructor expression with no
assignment to `self` or to any global, so both come back unchanged. -/
def EndpointInstructionFactory.didntExistCall (self : EndpointInstructionFactory)
    (st : RoutingState) :
    EndpointDidntExistInstruction × EndpointInstructionFactory × RoutingState :=
  (self.didnt_exist, self, st)

/-- The full method-call protocol for `existed` (lines 98-104): result,
factory after the call, routing state after the call. -/
def EndpointInstructionFactory.existedCall (self : EndpointInstructionFactory)
    (st : RoutingState) :
    EndpointExistedInstruction × EndpointInstructionFactory × RoutingState :=
  (self.existed, self, st)

/-- The full method-call protocol for `had` (lines 106-152): result,
factory after the call, routing state after the call. -/
def EndpointInstructionFactory.hadCall (self : EndpointInstructionFactory)
    (kwargs : HadKwargs) (st : RoutingState) :
    EndpointHadInstruction × EndpointInstructionFactory × RoutingState :=
  (self.had kwargs, self, st)

/-- The full method-call protocol for `was` (lines 154-163): result,
factory after the call, routing state after the call. -/
def EndpointInstructionFactory.wasCall (self : EndpointInstructionFactory)
    (g : PyValue) (st : RoutingState) :
    Except String EndpointWasInstruction × EndpointInstructionFactory × RoutingState :=
  (self.was g, self, st)

/-- `didnt_exist` with CPython object allocation made explicit: each
evaluation of the body (lines 90-96) allocates one fresh
`EndpointDidntExistInstruction`.  `c` is the allocator counter before the
call; the inner `Nat` is the object id of the freshly allocated
instruction and the outer `Nat` is the counter after the call. -/
def EndpointInstructionFactory.didntExistAlloc (self : EndpointInstructionFactory)
    (c : Nat) : (EndpointDidntExistInstruction × Nat) × Nat :=
  ((self.didnt_exist, c), c + 1)

/-- `existed` with CPython object allocation made explicit: each evaluation
of the body (lines 98-104) allocates one fresh `EndpointExistedInstruction`
(id `c`); the outer `Nat` is the counter after the call. -/
def EndpointInstructionFactory.existedAlloc (self : EndpointInstructionFactory)
    (c : Nat) : (EndpointExistedInstruction × Nat) × Nat :=
  ((self.existed, c), c + 1)

/-- `had` with CPython object allocation made explicit: each evaluation of
the body (lines 106-152) allocates the `EndpointAttributesPayload`
(id `c`) and then the `EndpointHadInstruction` (id `c + 1`).  `c` is the
allocator counter before the call; the inner `Nat` is the object id of the
freshly allocated instruction and the outer `Nat` is the counter after the
call. -/
def EndpointInstructionFactory.hadAlloc (self : EndpointInstructionFactory)
    (kwargs : HadKwargs) (c : Nat) : (EndpointHadInstruction × Nat) × Nat :=
  ((self.had kwargs, c + 1), c + 2)

/-- `was` with CPython object allocation made explicit: each evaluation of
the body (lines 154-163) allocates one fresh `EndpointWasInstruction`
(id `c`); the outer `Nat` is the counter after the call. -/
def EndpointInstructionFactory.wasAlloc (self : EndpointInstructionFactory)
    (g : PyValue) (c : Nat) : (Except String EndpointWasInstruction × Nat) × Nat :=
  ((self.was g, c), c + 1)

/-- A concrete factory used by the concrete evaluations below:
`endpoint("/users", ["GET"])`. -/
def fac0 : EndpointInstructionFactory :=
  { endpoint_path := "/users", endpoint_methods := ["GET"], endpoint_func_name := Option.none }

/-- A concrete `had` call site: `had(status_code=200, tags=[])`. -/
def k0 : HadKwargs :=
  { status_code := Option.some (PyValue.int 200), tags := Option.some (PyValue.list []) }

/-- A concrete payload: the one built by `fac0.had` with no keyword
arguments, i.e. every field is the Sentinel marker. -/
def p0 : EndpointAttributesPayload := (fac0.had {}).attributes

/-- A concrete call environment: callable `r` invoked at time `t` returns
`None` at time 0 and `True` at any later time, so its result at invocation
time differs from its result at construction time. -/
def env0 : CallEnv :=
  { table := fun _ t => Option.some (if t = 0 then PyValue.noneVal else PyValue.bool true) }

/-- A concrete `Had` instruction: `endpoint("/users", ["GET"]).had(status_code=200, tags=[])`. -/
def ih0 : EndpointHadInstruction := fac0.had k0

/-- A concrete `Existed` instruction: `endpoint("/users", ["GET"]).existed`. -/
def ie0 : EndpointExistedInstruction := fac0.existed

/-- A concrete `DidntExist` instruction: `endpoint("/users", ["GET"]).didnt_exist`. -/
def idi0 : EndpointDidntExistInstruction := fac0.didnt_exist

/-- A concrete `Was` instruction. -/
def iw0 : EndpointWasInstruction :=
  { endpoint_path := "/users", endpoint_methods := ["GET"], endpoint_func_name := Option.none,
    get_old_endpoint := PyValue.callable 7 }

/-- Concrete assigned values for the `EndpointHadInstruction` slots. -/
def hv0 : (f : HadField) → HadField.Ty f
  | .endpoint_path => "/changed"
  | .endpoint_methods => ["PUT"]
  | .endpoint_func_name => Option.some "alt"
  | .attributes => p0

/-- Concrete assigned values for the identity slots. -/
def iv0 : (f : IdField) → IdField.Ty f
  | .endpoint_path => "/changed"
  | .endpoint_methods => ["PUT"]
  | .endpoint_func_name => Option.some "alt"

/-- Concrete assigned values for the `EndpointWasInstruction` slots. -/
def wv0 : (f : WasField) → WasField.Ty f
  | .endpoint_path => "/changed"
  | .endpoint_methods => ["PUT"]
  | .endpoint_func_name => Option.some "alt"
  | .get_old_endpoint => PyValue.callable 9

/-- Helper: the payload field built by `had` is exactly the keyword argument
for that field, defaulted to the Sentinel marker. -/
theorem had_get_eq_kwvalue (self : EndpointInstructionFactory)
    (kwargs : HadKwargs) (f : AttrField) :
    (self.had kwargs).attributes.get f = kwvalue (kwargs.get f) := by
  cases f <;> rfl

/-- C1: for every `had(...)` call, a payload field is identity-equal to the
Sentinel marker if and only if the call site did not mention the field,
provided the call site passes only user-constructible values (the Sentinel
marker is not constructible by user code), including falsy or empty values. -/
theorem had_unset_iff_sentinel (fac : EndpointInstructionFactory)
    (kwargs : HadKwargs) (f : AttrField)
    (huser : ∀ v, kwargs.get f = Option.some v → v ≠ PyValue.sentinel) :
    ((fac.had kwargs).attributes.get f = PyValue.sentinel ↔
      kwargs.get f = Option.none) := by
  rw [had_get_eq_kwvalue]
  cases h : kwargs.get f with
  | none => simp [kwvalue]
  | some v =>
      simp only [kwvalue, Option.getD_some]
      constructor
      · intro hv
        exact absurd hv (huser v h)
      · intro hv
        exact absurd hv (by simp)

/-- Witness for C1: in `endpoint("/users", ["GET"]).had(status_code=200, tags=[])`
the unmentioned `summary` field is the Sentinel marker. -/
theorem had_unset_iff_sentinel_witness :
    (fac0.had k0).attributes.get AttrField.summary = PyValue.sentinel :=
  (had_unset_iff_sentinel fac0 k0 AttrField.summary (fun _ h => nomatch h)).mpr rfl

/-- C2: for every `had(...)` call and every field explicitly passed at the
call site (the passed value being user-constructible, hence not the
Sentinel marker, though possibly falsy or empty), the payload field stores
exactly the passed value and is not identity-equal to the Sentinel marker. -/
theorem had_set_roundtrip (fac : EndpointInstructionFactory)
    (kwargs : HadKwargs) (f : AttrField) (v : PyValue)
    (hmention : kwargs.get f = Option.some v) (hv : v ≠ PyValue.sentinel) :
    (fac.had kwargs).attributes.get f = v ∧
      (fac.had kwargs).attributes.get f ≠ PyValue.sentinel := by
  rw [had_get_eq_kwvalue, hmention]
  exact ⟨rfl, hv⟩

/-- Witness for C2: `endpoint("/users", ["GET"]).had(status_code=200, tags=[])`
yields a payload with `status_code == 200` (not Sentinel) and `tags == []`
(not Sentinel, despite being empty). -/
theorem had_set_roundtrip_witness :
    ((fac0.had k0).attributes.get AttrField.status_code = PyValue.int 200 ∧
      (fac0.had k0).attributes.get AttrField.status_code ≠ PyValue.sentinel) ∧
    ((fac0.had k0).attributes.get AttrField.tags = PyValue.list [] ∧
      (fac0.had k0).attributes.get AttrField.tags ≠ PyValue.sentinel) :=
  ⟨had_set_roundtrip fac0 k0 AttrField.status_code (PyValue.int 200) rfl (fun h => nomatch h),
   had_set_roundtrip fac0 k0 AttrField.tags (PyValue.list []) rfl (fun h => nomatch h)⟩

/-- C3 counterexample: the claim that every factory-produced instruction —
in particular a `Was` instruction — is a member of the
`AlterEndpointSubInstruction` union is false: the union declared at line
170 has only three members, and the concrete `Was` instruction produced by
`endpoint("/users", ["POST"]).was(...)` is not one of them. -/
theorem alter_union_excludes_was_counterexample :
    EndpointInstructionFactory.was
        { endpoint_path := "/users", endpoint_methods := ["POST"], endpoint_func_name := Option.none }
        (PyValue.callable 3) =
      Except.ok
        { endpoint_path := "/users", endpoint_methods := ["POST"], endpoint_func_name := Option.none,
          get_old_endpoint := PyValue.callable 3 } ∧
    toAlterEndpointSubInstruction
        (AnyEndpointInstruction.was
          { endpoint_path := "/users", endpoint_methods := ["POST"], endpoint_func_name := Option.none,
            get_old_endpoint := PyValue.callable 3 }) = Option.none :=
  ⟨rfl, rfl⟩

/-- C3 amended: the `AlterEndpointSubInstruction` union covers exactly the
three variants `DidntExist`, `Existed` and `Had` — every instruction
produced by `didnt_exist`, `existed` or `had` is a member, while a `Was`
instruction is not a member of the union. -/
theorem alter_union_members (fac : EndpointInstructionFactory)
    (kwargs : HadKwargs) (w : EndpointWasInstruction) :
    toAlterEndpointSubInstruction (AnyEndpointInstruction.didntExist fac.didnt_exist) =
      Option.some (AlterEndpointSubInstruction.didntExist fac.didnt_exist) ∧
    toAlterEndpointSubInstruction (AnyEndpointInstruction.existed fac.existed) =
      Option.some (AlterEndpointSubInstruction.existed fac.existed) ∧
    toAlterEndpointSubInstruction (AnyEndpointInstruction.had (fac.had kwargs)) =
      Option.some (AlterEndpointSubInstruction.had (fac.had kwargs)) ∧
    toAlterEndpointSubInstruction (AnyEndpointInstruction.was w) = Option.none :=
  ⟨rfl, rfl, rfl, rfl⟩

/-- C4 counterexample: constructing a factory with an empty
`endpoint_methods` sequence does NOT fail — `endpoint("/users", [])`
performs no validation and returns a factory, contradicting the claim that
it fails immediately with a synchronous error. -/
theorem endpoint_empty_methods_succeeds_counterexample :
    endpoint "/users" [] Option.none =
      Except.ok
        { endpoint_path := "/users", endpoint_methods := [], endpoint_func_name := Option.none } :=
  rfl

/-- C4 amended: factory construction performs no validation and always
succeeds — including with an empty `endpoint_methods` sequence — storing
the arguments verbatim (so with at least one method it succeeds and
preserves method order); a missing path can only be rejected by the call
protocol as a missing required positional argument, not by the factory
body. -/
theorem endpoint_construction_no_validation (path : String)
    (methods : List String) (fn : Option String) :
    endpoint path methods fn =
      Except.ok
        { endpoint_path := path, endpoint_methods := methods, endpoint_func_name := fn } :=
  rfl

/-- C5: `was(p)` never invokes `p` at construction time: the construction
always succeeds and the returned instruction stores the reference `p`
itself, so invoking the stored reference at any later time `t` returns
exactly what invoking `p` returns at time `t`, even when that differs from
its result at construction time. -/
theorem was_lazy (fac : EndpointInstructionFactory) (g : PyValue) :
    fac.was g =
      Except.ok
        { endpoint_path := fac.endpoint_path, endpoint_methods := fac.endpoint_methods,
          endpoint_func_name := fac.endpoint_func_name, get_old_endpoint := g } ∧
    ∀ (env : CallEnv) (t : Nat) (w : EndpointWasInstruction),
      fac.was g = Except.ok w → invoke env w.get_old_endpoint t = invoke env g t := by
  refine ⟨rfl, ?_⟩
  intro env t w h
  injection h with h
  subst h
  rfl

/-- Witness for C5: for the callable whose result is `None` at construction
time (time 0) and `True` later, the reference stored by `was` yields the
later value `True` when invoked at time 5, which differs from its
construction-time result. -/
theorem was_lazy_witness :
    invoke env0
        (EndpointWasInstruction.mk "/users" ["GET"] Option.none (PyValue.callable 7)).get_old_endpoint 5 =
      invoke env0 (PyValue.callable 7) 5 ∧
    invoke env0 (PyValue.callable 7) 5 ≠ invoke env0 (PyValue.callable 7) 0 :=
  ⟨(was_lazy fac0 (PyValue.callable 7)).2 env0 5 _ rfl,
   by simp [invoke, env0]⟩

/-- C6: `didnt_exist` and `existed` yield instructions carrying exactly the
factory's identity key, and those instruction shapes expose no
`attributes` payload field (reading it raises `AttributeError`). -/
theorem didnt_exist_existed_identity (fac : EndpointInstructionFactory) :
    fac.didnt_exist =
      { endpoint_path := fac.endpoint_path, endpoint_methods := fac.endpoint_methods,
        endpoint_func_name := fac.endpoint_func_name } ∧
    fac.existed =
      { endpoint_path := fac.endpoint_path, endpoint_methods := fac.endpoint_methods,
        endpoint_func_name := fac.endpoint_func_name } ∧
    (∀ i : EndpointDidntExistInstruction, i.getattr "attributes" = Except.error "AttributeError") ∧
    (∀ i : EndpointExistedInstruction, i.getattr "attributes" = Except.error "AttributeError") :=
  ⟨rfl, rfl, fun _ => rfl, fun _ => rfl⟩

/-- C7 counterexample: constructing a `Was` instruction from a non-callable
value does NOT fail at construction time — `was(42)` succeeds and stores
the non-callable, contradicting the claim of a synchronous
construction-time failure. -/
theorem was_noncallable_succeeds_counterexample :
    (PyValue.int 42).isCallable = false ∧
    EndpointInstructionFactory.was
        { endpoint_path := "/users", endpoint_methods := ["GET"], endpoint_func_name := Option.none }
        (PyValue.int 42) =
      Except.ok
        { endpoint_path := "/users", endpoint_methods := ["GET"], endpoint_func_name := Option.none,
          get_old_endpoint := PyValue.int 42 } :=
  ⟨rfl, rfl⟩

/-- C7 amended: `was` performs no callability check: construction with a
non-callable value always succeeds and stores the value; the error
surfaces only later, when the stored value is invoked (a `TypeError`,
modelled as `Option.none`), i.e. the failure is deferred to invocation
time, not construction time. -/
theorem was_noncallable_defers_error (fac : EndpointInstructionFactory)
    (v : PyValue) (hv : v.isCallable = false) :
    (∃ w, fac.was v = Except.ok w ∧ w.get_old_endpoint = v) ∧
    ∀ (env : CallEnv) (t : Nat), invoke env v t = Option.none := by
  refine ⟨⟨_, rfl, rfl⟩, ?_⟩
  intro env t
  cases v <;> simp_all [invoke, PyValue.isCallable]

/-- Witness for C7 amended: `was(42)` succeeds storing `42`, and invoking
`42` raises at any time. -/
theorem was_noncallable_defers_error_witness :
    (∃ w, fac0.was (PyValue.int 42) = Except.ok w ∧ w.get_old_endpoint = PyValue.int 42) ∧
    ∀ (env : CallEnv) (t : Nat), invoke env (PyValue.int 42) t = Option.none :=
  was_noncallable_defers_error fac0 (PyValue.int 42) rfl

/-- C8 counterexample: payload objects are NOT immutable after
construction — assigning to the declared field `status_code` of a freshly
constructed all-Sentinel payload succeeds (the dataclass is slotted but
not frozen) and rebinds the field to the new value. -/
theorem payload_mutation_succeeds_counterexample :
    p0.setattr "status_code" (PyValue.int 500) =
      Except.ok (p0.set AttrField.status_code (PyValue.int 500)) ∧
    (p0.set AttrField.status_code (PyValue.int 500)).status_code = PyValue.int 500 ∧
    p0.status_code = PyValue.sentinel ∧
    PyValue.int 500 ≠ PyValue.sentinel :=
  ⟨rfl, rfl, rfl, fun h => nomatch h⟩

/-- C8 amended: the payload dataclass AND all four instruction dataclasses
are slotted but not frozen, so immutability is by convention, not
enforced: on every one of these objects, assignment to any declared field
succeeds and rebinds that field to the assigned value, while assignment to
a name outside the declared slots fails with `AttributeError`. -/
theorem objects_setattr_not_frozen (p : EndpointAttributesPayload)
    (ih : EndpointHadInstruction) (ie : EndpointExistedInstruction)
    (idi : EndpointDidntExistInstruction) (iw : EndpointWasInstruction)
    (attrName : String) (pv : PyValue)
    (hv : (f : HadField) → HadField.Ty f) (iv : (f : IdField) → IdField.Ty f)
    (wv : (f : WasField) → WasField.Ty f) :
    ((∀ f, attrFieldOfName attrName = Option.some f →
        p.setattr attrName pv = Except.ok (p.set f pv) ∧ (p.set f pv).get f = pv) ∧
      (attrFieldOfName attrName = Option.none →
        p.setattr attrName pv = Except.error "AttributeError")) ∧
    ((∀ f, hadFieldOfName attrName = Option.some f →
        ih.setattr attrName hv = Except.ok (ih.setF f (hv f)) ∧
          (ih.setF f (hv f)).getF f = hv f) ∧
      (hadFieldOfName attrName = Option.none →
        ih.setattr attrName hv = Except.error "AttributeError")) ∧
    ((∀ f, idFieldOfName attrName = Option.some f →
        ie.setattr attrName iv = Except.ok (ie.setF f (iv f)) ∧
          (ie.setF f (iv f)).getF f = iv f) ∧
      (idFieldOfName attrName = Option.none →
        ie.setattr attrName iv = Except.error "AttributeError")) ∧
    ((∀ f, idFieldOfName attrName = Option.some f →
        idi.setattr attrName iv = Except.ok (idi.setF f (iv f)) ∧
          (idi.setF f (iv f)).getF f = iv f) ∧
      (idFieldOfName attrName = Option.none →
        idi.setattr attrName iv = Except.error "AttributeError")) ∧
    ((∀ f, wasFieldOfName attrName = Option.some f →
        iw.setattr attrName wv = Except.ok (iw.setF f (wv f)) ∧
          (iw.setF f (wv f)).getF f = wv f) ∧
      (wasFieldOfName attrName = Option.none →
        iw.setattr attrName wv = Except.error "AttributeError")) := by
  refine ⟨⟨?_, ?_⟩, ⟨?_, ?_⟩, ⟨?_, ?_⟩, ⟨?_, ?_⟩, ⟨?_, ?_⟩⟩
  · intro f hf
    refine ⟨?_, ?_⟩
    · simp [EndpointAttributesPayload.setattr, hf]
    · cases f <;> rfl
  · intro hf
    simp [EndpointAttributesPayload.setattr, hf]
  · intro f hf
    refine ⟨?_, ?_⟩
    · simp [EndpointHadInstruction.setattr, hf]
    · cases f <;> rfl
  · intro hf
    simp [EndpointHadInstruction.setattr, hf]
  · intro f hf
    refine ⟨?_, ?_⟩
    · simp [EndpointExistedInstruction.setattr, hf]
    · cases f <;> rfl
  · intro hf
    simp [EndpointExistedInstruction.setattr, hf]
  · intro f hf
    refine ⟨?_, ?_⟩
    · simp [EndpointDidntExistInstruction.setattr, hf]
    · cases f <;> rfl
  · intro hf
    simp [EndpointDidntExistInstruction.setattr, hf]
  · intro f hf
    refine ⟨?_, ?_⟩
    · simp [EndpointWasInstruction.setattr, hf]
    · cases f <;> rfl
  · intro hf
    simp [EndpointWasInstruction.setattr, hf]

/-- Witness for C8 amended: on concrete payload and instruction objects,
assigning to a declared slot (`status_code`, `endpoint_path`,
`endpoint_methods`, `endpoint_func_name`, `get_old_endpoint`) succeeds and
rebinds it, while assigning to the undeclared name `not_a_field` fails
with `AttributeError` on every object kind. -/
theorem objects_setattr_not_frozen_witness :
    (p0.setattr "status_code" (PyValue.int 500) =
        Except.ok (p0.set AttrField.status_code (PyValue.int 500)) ∧
      (p0.set AttrField.status_code (PyValue.int 500)).get AttrField.status_code = PyValue.int 500) ∧
    p0.setattr "not_a_field" (PyValue.int 1) = Except.error "AttributeError" ∧
    (ih0.setattr "endpoint_path" hv0 =
        Except.ok (ih0.setF HadField.endpoint_path (hv0 HadField.endpoint_path)) ∧
      (ih0.setF HadField.endpoint_path (hv0 HadField.endpoint_path)).getF HadField.endpoint_path =
        hv0 HadField.endpoint_path) ∧
    ih0.setattr "not_a_field" hv0 = Except.error "AttributeError" ∧
    (ie0.setattr "endpoint_methods" iv0 =
        Except.ok (ie0.setF IdField.endpoint_methods (iv0 IdField.endpoint_methods)) ∧
      (ie0.setF IdField.endpoint_methods (iv0 IdField.endpoint_methods)).getF IdField.endpoint_methods =
        iv0 IdField.endpoint_methods) ∧
    ie0.setattr "not_a_field" iv0 = Except.error "AttributeError" ∧
    (idi0.setattr "endpoint_func_name" iv0 =
        Except.ok (idi0.setF IdField.endpoint_func_name (iv0 IdField.endpoint_func_name)) ∧
      (idi0.setF IdField.endpoint_func_name (iv0 IdField.endpoint_func_name)).getF IdField.endpoint_func_name =
        iv0 IdField.endpoint_func_name) ∧
    idi0.setattr "not_a_field" iv0 = Except.error "AttributeError" ∧
    (iw0.setattr "get_old_endpoint" wv0 =
        Except.ok (iw0.setF WasField.get_old_endpoint (wv0 WasField.get_old_endpoint)) ∧
      (iw0.setF WasField.get_old_endpoint (wv0 WasField.get_old_endpoint)).getF WasField.get_old_endpoint =
        wv0 WasField.get_old_endpoint) ∧
    iw0.setattr "not_a_field" wv0 = Except.error "AttributeError" :=
  ⟨(objects_setattr_not_frozen p0 ih0 ie0 idi0 iw0 "status_code" (PyValue.int 500) hv0 iv0 wv0).1.1
      AttrField.status_code rfl,
   (objects_setattr_not_frozen p0 ih0 ie0 idi0 iw0 "not_a_field" (PyValue.int 1) hv0 iv0 wv0).1.2 rfl,
   (objects_setattr_not_frozen p0 ih0 ie0 idi0 iw0 "endpoint_path" (PyValue.int 1) hv0 iv0 wv0).2.1.1
      HadField.endpoint_path rfl,
   (objects_setattr_not_frozen p0 ih0 ie0 idi0 iw0 "not_a_field" (PyValue.int 1) hv0 iv0 wv0).2.1.2 rfl,
   (objects_setattr_not_frozen p0 ih0 ie0 idi0 iw0 "endpoint_methods" (PyValue.int 1) hv0 iv0 wv0).2.2.1.1
      IdField.endpoint_methods rfl,
   (objects_setattr_not_frozen p0 ih0 ie0 idi0 iw0 "not_a_field" (PyValue.int 1) hv0 iv0 wv0).2.2.1.2 rfl,
   (objects_setattr_not_frozen p0 ih0 ie0 idi0 iw0 "endpoint_func_name" (PyValue.int 1) hv0 iv0 wv0).2.2.2.1.1
      IdField.endpoint_func_name rfl,
   (objects_setattr_not_frozen p0 ih0 ie0 idi0 iw0 "not_a_field" (PyValue.int 1) hv0 iv0 wv0).2.2.2.1.2 rfl,
   (objects_setattr_not_frozen p0 ih0 ie0 idi0 iw0 "get_old_endpoint" (PyValue.int 1) hv0 iv0 wv0).2.2.2.2.1
      WasField.get_old_endpoint rfl,
   (objects_setattr_not_frozen p0 ih0 ie0 idi0 iw0 "not_a_field" (PyValue.int 1) hv0 iv0 wv0).2.2.2.2.2 rfl⟩

/-- C9: every factory operation is a pure constructor facade: after the
method call, the factory object and the ambient routing state are both
unchanged, and the call's result is exactly the constructed instruction. -/
theorem factory_operations_pure (fac : EndpointInstructionFactory)
    (kwargs : HadKwargs) (g : PyValue) (st : RoutingState) :
    (fac.didntExistCall st).2 = (fac, st) ∧
    (fac.existedCall st).2 = (fac, st) ∧
    (fac.hadCall kwargs st).2 = (fac, st) ∧
    (fac.wasCall g st).2 = (fac, st) ∧
    (fac.didntExistCall st).1 = fac.didnt_exist ∧
    (fac.existedCall st).1 = fac.existed ∧
    (fac.hadCall kwargs st).1 = fac.had kwargs ∧
    (fac.wasCall g st).1 = fac.was g :=
  ⟨rfl, rfl, rfl, rfl, rfl, rfl, rfl, rfl⟩

/-- C10: every factory operation is deterministic — two factories with
equal identity fields given identical arguments produce structurally equal
instructions — and every invocation of every operation allocates a fresh
object: two successive invocations of `didnt_exist`, `existed`, `had` or
`was` yield equal instruction values with distinct object identities. -/
theorem factory_operations_deterministic (f1 f2 : EndpointInstructionFactory)
    (kwargs : HadKwargs) (g : PyValue) (c : Nat)
    (hp : f1.endpoint_path = f2.endpoint_path)
    (hm : f1.endpoint_methods = f2.endpoint_methods)
    (hn : f1.endpoint_func_name = f2.endpoint_func_name) :
    f1.didnt_exist = f2.didnt_exist ∧
    f1.existed = f2.existed ∧
    f1.had kwargs = f2.had kwargs ∧
    f1.was g = f2.was g ∧
    ((f1.didntExistAlloc c).1.1 = (f1.didntExistAlloc ((f1.didntExistAlloc c).2)).1.1 ∧
      (f1.didntExistAlloc c).1.2 ≠ (f1.didntExistAlloc ((f1.didntExistAlloc c).2)).1.2) ∧
    ((f1.existedAlloc c).1.1 = (f1.existedAlloc ((f1.existedAlloc c).2)).1.1 ∧
      (f1.existedAlloc c).1.2 ≠ (f1.existedAlloc ((f1.existedAlloc c).2)).1.2) ∧
    ((f1.hadAlloc kwargs c).1.1 = (f1.hadAlloc kwargs ((f1.hadAlloc kwargs c).2)).1.1 ∧
      (f1.hadAlloc kwargs c).1.2 ≠ (f1.hadAlloc kwargs ((f1.hadAlloc kwargs c).2)).1.2) ∧
    ((f1.wasAlloc g c).1.1 = (f1.wasAlloc g ((f1.wasAlloc g c).2)).1.1 ∧
      (f1.wasAlloc g c).1.2 ≠ (f1.wasAlloc g ((f1.wasAlloc g c).2)).1.2) := by
  obtain ⟨p1, m1, n1⟩ := f1
  obtain ⟨p2, m2, n2⟩ := f2
  cases hp
  cases hm
  cases hn
  refine ⟨rfl, rfl, rfl, rfl, ⟨rfl, ?_⟩, ⟨rfl, ?_⟩, ⟨rfl, ?_⟩, ⟨rfl, ?_⟩⟩
  · simp only [EndpointInstructionFactory.didntExistAlloc]
    omega
  · simp only [EndpointInstructionFactory.existedAlloc]
    omega
  · simp only [EndpointInstructionFactory.hadAlloc]
    omega
  · simp only [EndpointInstructionFactory.wasAlloc]
    omega

/-- Witness for C10: starting from allocator counter 0 on the concrete
factory, two successive invocations of each of the four operations yield
objects with distinct identities. -/
theorem factory_operations_deterministic_witness :
    (fac0.didntExistAlloc 0).1.2 ≠ (fac0.didntExistAlloc ((fac0.didntExistAlloc 0).2)).1.2 ∧
    (fac0.existedAlloc 0).1.2 ≠ (fac0.existedAlloc ((fac0.existedAlloc 0).2)).1.2 ∧
    (fac0.hadAlloc {} 0).1.2 ≠ (fac0.hadAlloc {} ((fac0.hadAlloc {} 0).2)).1.2 ∧
    (fac0.wasAlloc (PyValue.callable 0) 0).1.2 ≠
      (fac0.wasAlloc (PyValue.callable 0) ((fac0.wasAlloc (PyValue.callable 0) 0).2)).1.2 :=
  ⟨(factory_operations_deterministic fac0 fac0 {} (PyValue.callable 0) 0 rfl rfl rfl).2.2.2.2.1.2,
   (factory_operations_deterministic fac0 fac0 {} (PyValue.callable 0) 0 rfl rfl rfl).2.2.2.2.2.1.2,
   (factory_operations_deterministic fac0 fac0 {} (PyValue.callable 0) 0 rfl rfl rfl).2.2.2.2.2.2.1.2,
   (factory_operations_deterministic fac0 fac0 {} (PyValue.callable 0) 0 rfl rfl rfl).2.2.2.2.2.2.2.2⟩
